import Mathlib

/-!
Shallow embedding of the ERM repository API layer (src/utils/api.py) and of
the paginator widget (src/utils/paginator.py), together with theorems that
check the natural-language specification against the code.

Machine integers are modelled as Nat or Int (Python integers are unbounded,
so no wrap-around is needed).  Timestamps are seconds as Nat.  Each handler
is embedded as a pure function over an explicit environment that stands for
the document stores reached through the bot object; a single `now` stands
for the (sub-second) burst of datetime.datetime.now() calls inside one
handler run.
-/

namespace ERM

/-- A token document of the Token Store (bot.api_tokens): the Mongo id is
the client network address (request.client.host), plus the token string and
the created_at / expires_at timestamps in seconds.  GET_get_token creates
documents without a link_string key; POST_authorize_token later adds one,
so the key is modelled as an Option (none = key absent). -/
structure TokenDoc where
  host : String
  token : String
  created_at : Nat
  expires_at : Nat
  link_string : Option String := none
deriving Repr, DecidableEq

/-- Mongo find_one on the Token Store with filter by the token field
(api_tokens.db.find_one with a token filter): first matching document. -/
def findByToken (store : List TokenDoc) (t : String) : Option TokenDoc :=
  store.find? (fun d => d.token == t)

/-- Mongo find_by_id on the Token Store (api_tokens.find_by_id host):
first document whose id (the host) matches. -/
def findById (store : List TokenDoc) (host : String) : Option TokenDoc :=
  store.find? (fun d => d.host == host)

/-- Upsert into the Token Store by document id (api_tokens.upsert):
replace the document with the same id, or append when absent. -/
def upsert (store : List TokenDoc) (doc : TokenDoc) : List TokenDoc :=
  if (store.find? (fun d => d.host == doc.host)).isSome then
    store.map (fun d => if d.host == doc.host then doc else d)
  else
    store ++ [doc]

/-- Embeds validate_authorization (src/utils/api.py lines 25-38).
static_token stands for config with the API_STATIC_TOKEN key; the store and
now stand for bot.api_tokens and the current time in seconds. -/
def validate_authorization (static_token : String) (store : List TokenDoc)
    (now : Nat) (token : String) (disable_static_tokens : Bool) : Bool :=
  if !disable_static_tokens && token == static_token then
    true
  else
    match findByToken store token with
    | some token_obj => decide (now < token_obj.expires_at)
    | none => false

/-- Embeds GET_get_token (src/utils/api.py lines 212-241).  generated
stands for the random string produced by tokenGenerator.  The result is
either an HTTP status (401) or the returned token document together with
the Token Store after the call.  The source computes expires_at as
int(now) + 2.592e6, an exactly representable float equal to now + 2592000. -/
def GET_get_token (private_key : String) (authorization : String)
    (host : String) (now : Nat) (generated : String)
    (store : List TokenDoc) : Except Nat (TokenDoc × List TokenDoc) :=
  if authorization ≠ private_key then
    .error 401
  else
    match findById store host with
    | some has_token =>
      if !decide (now > has_token.expires_at) then
        .ok (has_token, store)
      else
        let object : TokenDoc :=
          { host := host, token := generated,
            created_at := now, expires_at := now + 2592000 }
        .ok (object, upsert store object)
    | none =>
      let object : TokenDoc :=
        { host := host, token := generated,
          created_at := now, expires_at := now + 2592000 }
      .ok (object, upsert store object)

/-! Paginator widget (src/utils/paginator.py). -/

/-- State of a Paginator (src/utils/paginator.py lines 13-64): the fixed
page count passed to the constructor and the current page cursor.  Python
integers are modelled as Int so that a nonpositive page count can be
represented. -/
structure PaginatorState where
  pages : Int
  page : Int
deriving Repr, DecidableEq

/-- Constructor of Paginator: the cursor starts at page 1. -/
def Paginator.start (pages : Int) : PaginatorState :=
  { pages := pages, page := 1 }

/-- A press of one of the two navigation buttons. -/
inductive Press where
  | back
  | next
deriving Repr, DecidableEq

/-- Effect of one button press on the cursor: the Back button sets
page to max (page - 1) 1 (line 54), the Next button sets page to
min (page + 1) pages (line 61). -/
def press (s : PaginatorState) : Press → PaginatorState
  | .back => { s with page := max (s.page - 1) 1 }
  | .next => { s with page := min (s.page + 1) s.pages }

/-- A finite sequence of button presses applied in order. -/
def runPresses (s : PaginatorState) (ps : List Press) : PaginatorState :=
  ps.foldl press s

/-- Python slice l[m:n] for nonnegative m and n: drop m elements, then
take n - m. -/
def pySlice {α : Type} (l : List α) (m n : Nat) : List α :=
  (l.drop m).take (n - m)

/-- Page count computed by the StaticPaginator constructor
(src/utils/paginator.py line 97): math.ceil(len(lines) / line_limit),
written on naturals as (len + limit - 1) / limit, which agrees with the
exact ceiling for every positive limit (proved below). -/
def staticPages (lines : List String) (line_limit : Nat) : Nat :=
  (lines.length + line_limit - 1) / line_limit

/-- Description of the embed rendered for a page by the StaticPaginator
callback (src/utils/paginator.py lines 99-105): the newline join of the
slice lines[(page-1)*limit : page*limit].  Pages are 1-indexed; the
callback is only ever invoked with a page in [1, pages]. -/
def staticCallbackDescription (lines : List String) (line_limit : Nat)
    (page : Nat) : String :=
  String.intercalate "\n" (pySlice lines ((page - 1) * line_limit) (page * line_limit))

/-! JSON values and Python dictionary semantics, used by the handlers that
inspect raw request bodies. -/

/-- A JSON value as produced by request.json(). -/
inductive JVal where
  | jNull
  | jBool (b : Bool)
  | jNum (n : Int)
  | jStr (s : String)
  | jDict (entries : List (String × JVal))
deriving Repr

/-- Python truthiness of a JSON value: None, False, 0, the empty string
and the empty dict are falsy. -/
def JVal.truthy : JVal → Bool
  | .jNull => false
  | .jBool b => b
  | .jNum n => !decide (n = 0)
  | .jStr s => !(s == "")
  | .jDict entries => !entries.isEmpty

/-- Whether a JSON value is a dict (isinstance(value, dict)). -/
def JVal.isDict : JVal → Bool
  | .jDict _ => true
  | _ => false

/-- Python truthiness of an optional string field read with dict.get:
an absent key yields None (falsy) and an empty string is falsy. -/
def strTruthy : Option String → Bool
  | none => false
  | some s => !(s == "")

/-- A Python value as returned from a handler body: either None or a
string-valued dict (the only shapes the embedded handlers produce). -/
inductive PyValue where
  | pyNone
  | pyDict (entries : List (String × String))
deriving Repr, DecidableEq

/-- Python dict.update: mutates the receiver (existing keys overwritten in
place, new keys appended in order) and the expression itself evaluates to
None.  The first component is the mutated receiver, the second the value
of the expression. -/
def pyDictUpdate (d other : List (String × String)) :
    List (String × String) × PyValue :=
  (d.map (fun kv =>
      match other.find? (fun kv2 => kv2.1 == kv.1) with
      | some kv2 => kv2
      | none => kv) ++
    other.filter (fun kv2 => d.all (fun kv => !(kv.1 == kv2.1))),
   PyValue.pyNone)

/-! Documents of the remaining stores. -/

/-- A link-string document (bot.link_strings): its id is the link string
itself, and it records the Discord guild it pairs with. -/
structure LinkStringDoc where
  lsId : String
  guild : Nat
deriving Repr, DecidableEq

/-- A FiveM identity-linkage document (bot.fivem_links): its id is the
Discord user id, with the optional game-platform identifiers.  A Mongo id
is always present; Python truthiness of the id (an int) is false exactly
when it is 0. -/
structure FivemLinkDoc where
  discordId : Nat
  license : Option String := none
  steam_id : Option String := none
deriving Repr, DecidableEq

/-- One configured shift type inside guild settings. -/
structure ShiftTypeCfg where
  id : String
deriving Repr, DecidableEq

/-- The part of a guild settings document that the duty handlers read:
the optional shift_types list (none = no shift_types key; an empty list is
falsy for settings.get). -/
structure SettingsDoc where
  shift_types : Option (List ShiftTypeCfg) := none
deriving Repr, DecidableEq

/-- One entry of the data list of a shift record: an active shift in a
guild, optionally tagged with a shift type. -/
structure ShiftEntry where
  guild : Nat
  shift_type : Option String := none
deriving Repr, DecidableEq

/-- A shift record of the Shift Ledger (bot.shift_management.shifts):
keyed by member id, holding the list of active shift entries. -/
structure ShiftDoc where
  memberId : Nat
  data : List ShiftEntry
deriving Repr, DecidableEq

/-- The stores and ambient data reached through the bot object during one
request, together with the current time in seconds and the configured
static secret. -/
structure Env where
  static_token : String
  now : Nat
  api_tokens : List TokenDoc
  link_strings : List LinkStringDoc
  fivem_links : List FivemLinkDoc
  settings : List (Nat × SettingsDoc)
  guilds : List Nat
  members : List (Nat × Nat)
  shifts : List ShiftDoc
deriving Repr

/-- Mongo find_one on the Link-String Store by id. -/
def findLinkString (env : Env) (lsId : String) : Option LinkStringDoc :=
  env.link_strings.find? (fun d => d.lsId == lsId)

/-- Mongo find_one on the Identity Linkage Store by steam_id. -/
def findFivemBySteam (env : Env) (steam : String) : Option FivemLinkDoc :=
  env.fivem_links.find? (fun d => d.steam_id == some steam)

/-- Mongo find_one on the Identity Linkage Store by license. -/
def findFivemByLicense (env : Env) (license : String) : Option FivemLinkDoc :=
  env.fivem_links.find? (fun d => d.license == some license)

/-- Mongo find_one on the Identity Linkage Store by Discord id. -/
def findFivemById (env : Env) (discordId : Nat) : Option FivemLinkDoc :=
  env.fivem_links.find? (fun d => d.discordId == discordId)

/-- bot.get_guild: some id when the bot can see the guild. -/
def getGuild (env : Env) (guildId : Nat) : Option Nat :=
  if env.guilds.contains guildId then some guildId else none

/-- guild.fetch_member wrapped in the try/except of the handlers: some
member id when the member is fetchable in the guild, none when discord
raises NotFound. -/
def fetchMember (env : Env) (guildId memberId : Nat) : Option Nat :=
  if env.members.contains (guildId, memberId) then some memberId else none

/-- bot.settings.find_by_id for a guild. -/
def findSettings (env : Env) (guildId : Nat) : Option SettingsDoc :=
  (env.settings.find? (fun kv => kv.1 == guildId)).map (fun kv => kv.2)

/-- shift_management.shifts.find_by_id for a member. -/
def findShiftDoc (shifts : List ShiftDoc) (memberId : Nat) : Option ShiftDoc :=
  shifts.find? (fun d => d.memberId == memberId)

/-! Shift Ledger operations.  The shift_management subsystem is not part
of this repository (only its callers are under src/), so these two
operations are modelled from the spec. -/

/-- Modelled from the spec: shift_management.add_shift_by_user is missing
from src/ (the Shift Ledger is an external bot subsystem).  Per the spec a
shift record is created on duty-on and the ledger keeps at most one active
shift per (member, guild), so adding a shift installs the new entry for
that guild in the member record, replacing any existing entry for the same
guild, and creates the member record when absent. -/
def add_shift_by_user (shifts : List ShiftDoc) (memberId guildId : Nat)
    (shift_type : Option String) : List ShiftDoc :=
  let entry : ShiftEntry := { guild := guildId, shift_type := shift_type }
  match findShiftDoc shifts memberId with
  | some _ =>
    shifts.map (fun d =>
      if d.memberId == memberId then
        { d with data := d.data.filter (fun e => !(e.guild == guildId)) ++ [entry] }
      else d)
  | none => shifts ++ [{ memberId := memberId, data := [entry] }]

/-- Modelled from the spec: shift_management.remove_shift_by_user is
missing from src/.  Per the spec a shift is closed on duty-off; the entry
the handler passes is removed from the member record. -/
def remove_shift_by_user (shifts : List ShiftDoc) (memberId : Nat)
    (entry : ShiftEntry) : List ShiftDoc :=
  shifts.map (fun d =>
    if d.memberId == memberId then { d with data := d.data.erase entry }
    else d)

/-- Active shift entries of a member for a guild in the ledger. -/
def openShiftsFor (shifts : List ShiftDoc) (memberId guildId : Nat) :
    List ShiftEntry :=
  match findShiftDoc shifts memberId with
  | some d => d.data.filter (fun e => e.guild == guildId)
  | none => []

/-! The common authorization prologue and the request handlers. -/

/-- How an embedded handler can fail: an HTTPException carrying a status
and detail, or an unhandled Python exception of the named kind. -/
inductive HandlerErr where
  | httpError (status : Nat) (detail : String)
  | pyError (kind : String)
deriving Repr, DecidableEq

/-- The authorization prologue repeated verbatim in POST_get_discord
(lines 396-412), POST_get_fivem (lines 427-443) and POST_duty_on (lines
465-481): the header is resolved to a token document and then to its
link-string document.  A token document created by GET_get_token and
never authorized has no link_string key, so reading token_obj with the
link_string key raises an unhandled KeyError. -/
def authLinkChain (env : Env) (authorization : Option String) :
    Except HandlerErr (TokenDoc × LinkStringDoc) :=
  match authorization with
  | none => .error (.httpError 401 "Invalid authorization")
  | some auth =>
    if auth == "" then .error (.httpError 401 "Invalid authorization")
    else
      match findByToken env.api_tokens auth with
      | none => .error (.httpError 401 "Invalid authorization")
      | some token_obj =>
        if decide (env.now > token_obj.expires_at) then
          .error (.httpError 401 "Invalid authorization")
        else
          match token_obj.link_string with
          | none => .error (.pyError "KeyError")
          | some ls =>
            match findLinkString env ls with
            | none => .error (.httpError 401 "Invalid link string")
            | some link_string_obj => .ok (token_obj, link_string_obj)

/-- Body of a duty-on or duty-off request, as read by request.json(): the
fields the handlers access, each none when the key is absent.  The guild
field is the raw JSON value read by the tokenless duty-off path.  A falsy
body (if not body) is modelled by the surrounding Option. -/
structure DutyBody where
  steam_id : Option String := none
  shift_type : Option String := none
  guild : Option JVal := none
deriving Repr

/-- Checking stage of POST_duty_on (src/utils/api.py lines 456-525): all
resolution and validation before the add_shift_by_user call.  On success
it yields the resolved guild, the member, and the optional validated
shift type. -/
def dutyOnCheck (env : Env) (authorization : Option String)
    (body : Option DutyBody) :
    Except HandlerErr (Nat × Nat × Option String) :=
  match authLinkChain env authorization with
  | .error e => .error e
  | .ok (_token_obj, link_string_obj) =>
    match getGuild env link_string_obj.guild with
    | none => .error (.httpError 404 "Guild not found")
    | some guild =>
      match body with
      | none => .error (.httpError 400 "No body provided")
      | some b =>
        match b.steam_id with
        | none => .error (.httpError 400 "No steam ID provided")
        | some steam =>
          if steam == "" then .error (.httpError 400 "No steam ID provided")
          else
            match findFivemBySteam env steam with
            | none => .error (.httpError 404 "Could not find FiveM link")
            | some fivem_link =>
              if fivem_link.discordId == 0 then
                .error (.httpError 404 "Could not find FiveM link")
              else
                match fetchMember env guild fivem_link.discordId with
                | none => .error (.httpError 404 "Could not find Discord member")
                | some member =>
                  match findSettings env guild with
                  | none => .error (.httpError 404 "Could not find settings")
                  | some settings =>
                    -- available_shift_types is assigned only when
                    -- settings.get with the shift_types key is truthy
                    let available : Option (List String) :=
                      match settings.shift_types with
                      | some l => if !l.isEmpty then some (l.map (fun t => t.id)) else none
                      | none => none
                    match b.shift_type with
                    | none => .ok (guild, member, none)
                    | some st =>
                      if st == "" then .ok (guild, member, none)
                      else
                        match available with
                        | none => .error (.pyError "NameError")
                        | some avail =>
                          if !avail.contains st then
                            .error (.httpError 400 "Invalid shift type")
                          else .ok (guild, member, some st)

/-- Embeds POST_duty_on (src/utils/api.py lines 456-534): the checking
stage followed by the Shift Ledger update; returns the handler outcome
(the success triple mirrors the success JSON of lines 530-534, with the
resolved guild alongside) and the ledger after the call. -/
def POST_duty_on (env : Env) (authorization : Option String)
    (body : Option DutyBody) :
    Except HandlerErr (Nat × Nat × Option String) × List ShiftDoc :=
  match dutyOnCheck env authorization body with
  | .error e => (.error e, env.shifts)
  | .ok (guild, member, st) =>
    (.ok (guild, member, st), add_shift_by_user env.shifts member guild st)

/-- Checking stage of POST_duty_off (src/utils/api.py lines 536-605): all
resolution before the remove_shift_by_user call.  On success it yields
the resolved guild, the member, and the first open shift entry of that
member for that guild.  On the tokenless path the guild variable is a raw
JSON value with no fetch_member attribute and fivem_link is never
assigned, so line 587 raises an unhandled AttributeError. -/
def dutyOffCheck (env : Env) (authorization : Option String)
    (body : Option DutyBody) :
    Except HandlerErr (Nat × Nat × ShiftEntry) :=
  match authorization with
  | none => .error (.httpError 401 "Invalid authorization")
  | some auth =>
    if auth == "" then .error (.httpError 401 "Invalid authorization")
    else if !validate_authorization env.static_token env.api_tokens env.now auth false then
      .error (.httpError 401 "Invalid or expired authorization.")
    else
      match findByToken env.api_tokens auth with
      | some token_obj =>
        -- token path: guild from the link string of the token
        match token_obj.link_string with
        | none => .error (.pyError "KeyError")
        | some ls =>
          match findLinkString env ls with
          | none => .error (.httpError 401 "Invalid link string")
          | some link_string_obj =>
            match getGuild env link_string_obj.guild with
            | none => .error (.httpError 404 "Guild not found")
            | some guild =>
              match body with
              | none => .error (.httpError 400 "No body provided")
              | some b =>
                match b.steam_id with
                | none => .error (.httpError 400 "No steam ID provided")
                | some steam =>
                  if steam == "" then .error (.httpError 400 "No steam ID provided")
                  else
                    match findFivemBySteam env steam with
                    | none => .error (.httpError 404 "Could not find FiveM link")
                    | some fivem_link =>
                      if fivem_link.discordId == 0 then
                        .error (.httpError 404 "Could not find FiveM link")
                      else
                        match fetchMember env guild fivem_link.discordId with
                        | none => .error (.httpError 404 "Could not find Discord member")
                        | some member =>
                          match findSettings env guild with
                          | none => .error (.httpError 404 "Could not find settings")
                          | some _settings =>
                            match findShiftDoc env.shifts member with
                            | none => .error (.httpError 404 "Could not find user shifts")
                            | some shifts_doc =>
                              match shifts_doc.data.filter (fun e => e.guild == guild) with
                              | [] => .error (.httpError 404 "Could not find user shifts")
                              | e :: _ => .ok (guild, member, e)
      | none =>
        -- tokenless path (static bypass): guild is read from the body
        match body with
        | none => .error (.pyError "KeyError")
        | some b =>
          match b.guild with
          | none => .error (.pyError "KeyError")
          | some v =>
            if !v.truthy then .error (.httpError 404 "Guild not found")
            else
              match body with
              | none => .error (.httpError 400 "No body provided")
              | some _ =>
                -- the steam and fivem block is skipped (token_obj is
                -- falsy); line 587 then evaluates guild.fetch_member on a
                -- JSON value, an unhandled AttributeError (and fivem_link
                -- would be unbound)
                .error (.pyError "AttributeError")

/-- Embeds POST_duty_off (src/utils/api.py lines 536-609): the checking
stage followed by the Shift Ledger update; returns the handler outcome
and the ledger after the call. -/
def POST_duty_off (env : Env) (authorization : Option String)
    (body : Option DutyBody) :
    Except HandlerErr (Nat × Nat) × List ShiftDoc :=
  match dutyOffCheck env authorization body with
  | .error e => (.error e, env.shifts)
  | .ok (guild, member, e) =>
    (.ok (guild, member), remove_shift_by_user env.shifts member e)

/-- Rendering of a FiveM link document as the string dict handed to
dict.update by POST_get_discord / POST_get_fivem. -/
def FivemLinkDoc.toDict (d : FivemLinkDoc) : List (String × String) :=
  [("_id", toString d.discordId)] ++
    (match d.license with | some s => [("license", s)] | none => []) ++
    (match d.steam_id with | some s => [("steam_id", s)] | none => [])

/-- Embeds POST_get_discord (src/utils/api.py lines 390-422).  license
stands for body.license (none when absent). -/
def POST_get_discord (env : Env) (authorization : Option String)
    (license : Option String) : Except HandlerErr PyValue :=
  match authLinkChain env authorization with
  | .error e => .error e
  | .ok _ =>
    match license with
    | none => .error (.httpError 400 "Missing license")
    | some lic =>
      if lic == "" then .error (.httpError 400 "Missing license")
      else
        match findFivemByLicense env lic with
        | some fivem_link =>
          .ok (pyDictUpdate [("status", "success")] fivem_link.toDict).2
        | none => .ok (.pyDict [("status", "failed")])

/-- Embeds POST_get_fivem (src/utils/api.py lines 424-454).  discord_id
stands for body.get with the discord_id key; none also covers a falsy
body, which produces the same 400. -/
def POST_get_fivem (env : Env) (authorization : Option String)
    (discord_id : Option Nat) : Except HandlerErr PyValue :=
  match authLinkChain env authorization with
  | .error e => .error e
  | .ok _ =>
    match discord_id with
    | none => .error (.httpError 400 "Missing discord_id")
    | some i =>
      if i == 0 then .error (.httpError 400 "Missing discord_id")
      else
        match findFivemById env i with
        | some fivem_link =>
          .ok (pyDictUpdate [("status", "success")] fivem_link.toDict).2
        | none => .ok (.pyDict [("status", "failed")])

/-! POST_update_guild_settings (src/utils/api.py lines 172-194). -/

/-- A raw settings document as a JSON dict. -/
def SettingsObj : Type := List (String × JVal)

/-- bot.settings.find_by_id applied to the raw guild value of the body:
documents are keyed by integer guild id, so only an integer value can
match. -/
def findSettingsJ (store : List (Int × SettingsObj)) (guild_id : Option JVal) :
    Option SettingsObj :=
  match guild_id with
  | some (.jNum n) => (store.find? (fun kv => kv.1 == n)).map (fun kv => kv.2)
  | _ => none

/-- Python dict item assignment d[k] = v: overwrite in place when the key
exists, append otherwise. -/
def setKey (d : List (String × JVal)) (k : String) (v : JVal) :
    List (String × JVal) :=
  if d.any (fun kv => kv.1 == k) then
    d.map (fun kv => if kv.1 == k then (k, v) else kv)
  else d ++ [(k, v)]

/-- The inner loop body for one dict-valued entry: for every k, v in
value.items() perform settings[key][k] = v.  Reading settings[key] raises
KeyError when the key is absent and item assignment raises a TypeError
when the stored value is not a dict. -/
def applyNested (s : SettingsObj) (key : String)
    (pairs : List (String × JVal)) : Except String SettingsObj :=
  match (List.find? (fun kv => kv.1 == key) s : Option (String × JVal)) with
  | none => .error "KeyError"
  | some (_, .jDict inner) =>
    .ok (setKey s key (.jDict (pairs.foldl (fun acc kv => setKey acc kv.1 kv.2) inner)))
  | some _ => .error "TypeError"

/-- The for-loop of POST_update_guild_settings (lines 176-184): iterates
over the body items; every dict-valued entry under a key other than guild
refetches the settings document (400 when not found) and applies the
nested assignments; the accumulator is the current value of the local
variable settings, none while it has never been assigned. -/
def updateLoop (store : List (Int × SettingsObj)) (guild_id : Option JVal) :
    List (String × JVal) → Option SettingsObj →
    Except HandlerErr (Option SettingsObj)
  | [], acc => .ok acc
  | (key, value) :: rest, acc =>
    if key == "guild" then updateLoop store guild_id rest acc
    else
      match value with
      | .jDict pairs =>
        match findSettingsJ store guild_id with
        | none => .error (.httpError 400 "Invalid guild")
        | some settings =>
          match applyNested settings key pairs with
          | .error k => .error (.pyError k)
          | .ok s2 => updateLoop store guild_id rest (some s2)
      | _ => updateLoop store guild_id rest acc

/-- Mongo update_by_id on the settings store for an integer guild key. -/
def updateById (store : List (Int × SettingsObj)) (n : Int) (s : SettingsObj) :
    List (Int × SettingsObj) :=
  store.map (fun kv => if kv.1 == n then (n, s) else kv)

/-- Python int() conversion of a JSON value: ints pass through, bools map
to 0 or 1, numeric strings parse, everything else raises. -/
def pyInt : JVal → Except String Int
  | .jNum n => .ok n
  | .jBool b => .ok (if b then 1 else 0)
  | .jStr s =>
    match s.toInt? with
    | some n => .ok n
    | none => .error "ValueError"
  | .jNull => .error "TypeError"
  | .jDict _ => .error "TypeError"

/-- Embeds POST_update_guild_settings (src/utils/api.py lines 172-194).
body stands for the parsed JSON dict; guilds lists the guild ids visible
to bot.get_guild.  After the loop the handler always calls
update_by_id(settings): when the loop never assigned the local variable
settings this raises an unhandled NameError, before the late guild
checks of lines 187-192 run. -/
def POST_update_guild_settings (store : List (Int × SettingsObj))
    (guilds : List Int) (body : List (String × JVal)) :
    Except HandlerErr SettingsObj :=
  let guild_id : Option JVal :=
    (body.find? (fun kv => kv.1 == "guild")).map (fun kv => kv.2)
  match updateLoop store guild_id body none with
  | .error e => .error e
  | .ok none => .error (.pyError "NameError")
  | .ok (some settings) =>
    -- a settings document can only have been fetched through an integer
    -- guild value, so update_by_id persists under that key
    let store2 : List (Int × SettingsObj) :=
      match guild_id with
      | some (.jNum n) => updateById store n settings
      | _ => store
    match guild_id with
    | none => .error (.httpError 400 "Invalid guild")
    | some gv =>
      if !gv.truthy then .error (.httpError 400 "Invalid guild")
      else
        match pyInt gv with
        | .error k => .error (.pyError k)
        | .ok n =>
          if !guilds.contains n then
            -- bot.get_guild returned None; guild.id raises
            .error (.pyError "AttributeError")
          else
            match (store2.find? (fun kv => kv.1 == n)).map (fun kv => kv.2) with
            | none => .error (.httpError 404 "Guild does not have settings attribute")
            | some s2 => .ok s2

/-! Concrete environments used to instantiate the claims. -/

/-- An environment in which a duty-on request passes every resolution step
but the guild settings have no shift_types entry. -/
def envC3 : Env :=
  { static_token := "static", now := 10,
    api_tokens := [{ host := "h", token := "tok", created_at := 0,
                     expires_at := 100, link_string := some "ls" }],
    link_strings := [{ lsId := "ls", guild := 5 }],
    fivem_links := [{ discordId := 7, steam_id := some "steam1" }],
    settings := [(5, { shift_types := none })],
    guilds := [5],
    members := [(5, 7)],
    shifts := [] }

/-- An environment for the tokenless duty-off path: the static bypass
token authorizes, no token document is stored, and member 7 holds an open
shift in guild 5. -/
def envC4 : Env :=
  { static_token := "static", now := 10,
    api_tokens := [],
    link_strings := [],
    fivem_links := [{ discordId := 7, steam_id := some "steam1" }],
    settings := [(5, { shift_types := none })],
    guilds := [5],
    members := [(5, 7)],
    shifts := [{ memberId := 7, data := [{ guild := 5, shift_type := none }] }] }

/-- An environment in which both duty-on and duty-off resolve fully for
member 7 in guild 5, starting from an empty Shift Ledger. -/
def envC5 : Env :=
  { static_token := "static", now := 10,
    api_tokens := [{ host := "h", token := "tok", created_at := 0,
                     expires_at := 100, link_string := some "ls" }],
    link_strings := [{ lsId := "ls", guild := 5 }],
    fivem_links := [{ discordId := 7, steam_id := some "steam1" }],
    settings := [(5, { shift_types := none })],
    guilds := [5],
    members := [(5, 7)],
    shifts := [] }

/-- An environment in which the authorization prologue succeeds and a
FiveM link with license lic1 exists. -/
def envC8 : Env :=
  { static_token := "s", now := 10,
    api_tokens := [{ host := "h", token := "tok", created_at := 0,
                     expires_at := 100, link_string := some "ls" }],
    link_strings := [{ lsId := "ls", guild := 5 }],
    fivem_links := [{ discordId := 7, license := some "lic1",
                      steam_id := some "steam1" }],
    settings := [],
    guilds := [],
    members := [],
    shifts := [] }

/-! Theorems checking the claims. -/

/-- C1: validate_authorization returns true iff the static bypass is not
disabled and the token equals the configured static secret, or a token
document with that token exists in the Token Store and the current time
in seconds is strictly less than its expires_at; in every other case it
returns false.  Being a total Lean function over the embedded state, it
never raises. -/
theorem C1_validate_authorization_iff (static_token : String)
    (store : List TokenDoc) (now : Nat) (t : String) (dis : Bool) :
    validate_authorization static_token store now t dis = true ↔
      ((dis = false ∧ t = static_token) ∨
        ∃ d, findByToken store t = some d ∧ now < d.expires_at) := by
  unfold validate_authorization
  cases dis with
  | false =>
    by_cases ht : t = static_token
    · simp [ht]
    · cases h : findByToken store t with
      | none => simp [ht, h]
      | some d => simp [ht, h]
  | true =>
    cases h : findByToken store t with
    | none => simp [h]
    | some d => simp [h]

/-- C2: token issuance is idempotent within the validity window.  With the
correct private key, when the client address holds a stored token whose
expiry has not passed (now less than or equal to expires_at, matching the
negated strict check of line 228) the stored document is returned
unchanged and the Token Store is left unchanged; only when no token is
stored for the address, or the stored one has expired, is a fresh token
generated, persisted under the client address, and returned. -/
theorem C2_get_token_idempotent (private_key host generated : String)
    (now : Nat) (store : List TokenDoc) :
    (∀ d, findById store host = some d → now ≤ d.expires_at →
      GET_get_token private_key private_key host now generated store =
        .ok (d, store)) ∧
    ((findById store host = none ∨
        ∃ d, findById store host = some d ∧ d.expires_at < now) →
      GET_get_token private_key private_key host now generated store =
        .ok ({ host := host, token := generated, created_at := now,
               expires_at := now + 2592000 },
          upsert store
            { host := host, token := generated, created_at := now,
              expires_at := now + 2592000 })) := by
  constructor
  · intro d hd hle
    unfold GET_get_token
    simp [hd, Nat.not_lt.mpr hle]
  · intro h
    unfold GET_get_token
    rcases h with h | ⟨d, hd, hlt⟩
    · simp [h]
    · simp [hd, hlt]

/-- Witness for C2 at a concrete store: a token stored for the client and
not yet expired is returned unchanged with the store unchanged. -/
theorem C2_get_token_idempotent_witness :
    GET_get_token "pk" "pk" "h1" 50 "gen"
        [{ host := "h1", token := "t1", created_at := 0, expires_at := 100 }] =
      .ok ({ host := "h1", token := "t1", created_at := 0, expires_at := 100 },
        [{ host := "h1", token := "t1", created_at := 0, expires_at := 100 }]) :=
  (C2_get_token_idempotent "pk" "h1" "gen" 50
      [{ host := "h1", token := "t1", created_at := 0, expires_at := 100 }]).1
    { host := "h1", token := "t1", created_at := 0, expires_at := 100 }
    rfl (by decide)

/-- C9: the validity predicates of issuance and validation disagree at the
expiry boundary.  At the instant now = expires_at of a stored token,
GET_get_token still returns the stored document unchanged (its check is
now strictly greater than expires_at), while validate_authorization
rejects the very same token string (its check requires now strictly less
than expires_at). -/
theorem C9_expiry_boundary (static_token private_key host generated : String)
    (d : TokenDoc) (store : List TokenDoc)
    (hid : findById store host = some d)
    (htok : findByToken store d.token = some d)
    (hstatic : d.token ≠ static_token) :
    GET_get_token private_key private_key host d.expires_at generated store =
      .ok (d, store) ∧
    validate_authorization static_token store d.expires_at d.token false =
      false := by
  constructor
  · unfold GET_get_token
    simp [hid]
  · unfold validate_authorization
    simp [htok, hstatic]

/-- Witness for C9 at a concrete store and its expiry instant. -/
theorem C9_expiry_boundary_witness :
    GET_get_token "pk" "pk" "h1" 100 "gen"
        [{ host := "h1", token := "t1", created_at := 0, expires_at := 100 }] =
      .ok ({ host := "h1", token := "t1", created_at := 0, expires_at := 100 },
        [{ host := "h1", token := "t1", created_at := 0, expires_at := 100 }]) ∧
    validate_authorization "s"
        [{ host := "h1", token := "t1", created_at := 0, expires_at := 100 }]
        100 "t1" false = false :=
  C9_expiry_boundary "s" "pk" "h1" "gen"
    { host := "h1", token := "t1", created_at := 0, expires_at := 100 }
    [{ host := "h1", token := "t1", created_at := 0, expires_at := 100 }]
    rfl rfl (by decide)

/-- C6 counterexample: a Paginator constructed with a page count of 0 (as
StaticPaginator produces for an empty line list) starts at page 1, which
already lies outside the interval [1, 0], and a single Next press drives
the cursor to 0; so the claim fails as stated for every page count below
1. -/
theorem C6_counterexample :
    ¬ (1 ≤ (runPresses (Paginator.start 0) [Press.next]).page ∧
        (runPresses (Paginator.start 0) [Press.next]).page ≤ (0 : Int)) := by
  decide

/-- C6 amended: for every Paginator whose page count is at least 1 and
every finite sequence of Next and Back presses, the cursor stays inside
[1, pages]: starting from page 1, Back sets page to max (page - 1) 1 and
Next sets page to min (page + 1) pages. -/
theorem C6_paginator_bounds (pages : Int) (hp : 1 ≤ pages) (ps : List Press) :
    1 ≤ (runPresses (Paginator.start pages) ps).page ∧
      (runPresses (Paginator.start pages) ps).page ≤ pages := by
  have key : ∀ (l : List Press) (s : PaginatorState), s.pages = pages →
      1 ≤ s.page → s.page ≤ pages →
      1 ≤ (runPresses s l).page ∧ (runPresses s l).page ≤ pages := by
    intro l
    induction l with
    | nil =>
      intro s _ h1 h2
      exact ⟨h1, h2⟩
    | cons p l ih =>
      intro s hpg h1 h2
      cases p with
      | back =>
        exact ih (press s .back) hpg (le_max_right _ _) (max_le (by omega) hp)
      | next =>
        refine ih (press s .next) hpg ?_ ?_
        · show 1 ≤ min (s.page + 1) s.pages
          rw [hpg]
          exact le_min (by omega) hp
        · show min (s.page + 1) s.pages ≤ pages
          rw [hpg]
          exact min_le_right _ _
  exact key ps (Paginator.start pages) rfl (le_refl 1) hp

/-- Witness for the amended C6 at page count 2 and a press sequence that
pushes past both bounds. -/
theorem C6_paginator_bounds_witness :
    1 ≤ (runPresses (Paginator.start 2)
        [Press.next, Press.next, Press.next, Press.back, Press.back,
         Press.back]).page ∧
      (runPresses (Paginator.start 2)
        [Press.next, Press.next, Press.next, Press.back, Press.back,
         Press.back]).page ≤ 2 :=
  C6_paginator_bounds 2 (by decide)
    [Press.next, Press.next, Press.next, Press.back, Press.back, Press.back]

/-- C7: for every line list and positive line limit, the page count of
StaticPaginator is the ceiling of length / limit (stated through the
defining Galois property of the ceiling: pages is at most c exactly when
limit * c covers all lines), rendering page N joins exactly the block of
limit lines starting at (N - 1) * limit, and in particular 32 lines with
limit 15 give 3 pages whose third page renders the 2-line slice
lines[30:32]. -/
theorem C7_static_paginator (lines : List String) (line_limit : Nat)
    (h : 0 < line_limit) :
    (∀ c : Nat, staticPages lines line_limit ≤ c ↔
      lines.length ≤ line_limit * c) ∧
    (∀ page : Nat, 1 ≤ page →
      staticCallbackDescription lines line_limit page =
        String.intercalate "\n"
          ((lines.drop ((page - 1) * line_limit)).take line_limit)) ∧
    (∀ ls : List String, ls.length = 32 →
      staticPages ls 15 = 3 ∧
      staticCallbackDescription ls 15 3 =
        String.intercalate "\n" (pySlice ls 30 32) ∧
      (pySlice ls 30 32).length = 2) := by
  refine ⟨?_, ?_, ?_⟩
  · intro c
    unfold staticPages
    rw [Nat.div_le_iff_le_mul_add_pred h]
    omega
  · intro page hp
    obtain ⟨p, rfl⟩ : ∃ p, page = p + 1 := ⟨page - 1, by omega⟩
    have hp1 : p + 1 - 1 = p := rfl
    have hk : (p + 1) * line_limit - (p + 1 - 1) * line_limit = line_limit := by
      rw [hp1, Nat.succ_mul]
      omega
    simp only [staticCallbackDescription, pySlice, hk]
  · intro ls hlen
    have hd : (ls.drop 30).length = 2 := by
      simp [hlen]
    refine ⟨?_, ?_, ?_⟩
    · unfold staticPages
      rw [hlen]
    · unfold staticCallbackDescription pySlice
      norm_num
      rw [List.take_of_length_le (le_of_eq_of_le hd (by decide)),
        List.take_of_length_le (le_of_eq hd)]
    · simp [pySlice, hlen]

/-- Witness for C7 at the 32-line, limit-15 instance of the claim. -/
theorem C7_static_paginator_witness :
    staticPages (List.replicate 32 "x") 15 = 3 ∧
    staticCallbackDescription (List.replicate 32 "x") 15 3 =
      String.intercalate "\n" (pySlice (List.replicate 32 "x") 30 32) ∧
    (pySlice (List.replicate 32 "x") 30 32).length = 2 :=
  (C7_static_paginator (List.replicate 32 "x") 15 (by decide)).2.2
    (List.replicate 32 "x") (by simp)

/-- C3: evaluation of POST_duty_on at the failing input.  A duty-on
request that passes every resolution step, against guild settings that
have no shift_types entry at all, and whose body requests a shift type,
reaches the membership test on the never-assigned local variable
available_shift_types (line 524) and raises an unhandled NameError
instead of failing with HTTP status 400 as the claim states. -/
theorem C3_duty_on_name_error :
    POST_duty_on envC3 (some "tok")
        (some { steam_id := some "steam1", shift_type := some "patrol" }) =
      (.error (.pyError "NameError"), []) := by
  rfl

/-- C4 counterexample: a duty-off request authorized through the static
bypass token, with no token document stored, a guild id in the body, and
an open shift for member 7 in guild 5, does not complete the duty-off
flow: it raises an unhandled AttributeError at line 587 (the body guild
value has no fetch_member attribute, and fivem_link was never assigned on
this path), and the open shift stays in the Shift Ledger unchanged. -/
theorem C4_counterexample :
    POST_duty_off envC4 (some "static")
        (some { steam_id := some "steam1", guild := some (JVal.jNum 5) }) =
      (.error (.pyError "AttributeError"),
        [{ memberId := 7, data := [{ guild := 5, shift_type := none }] }]) := by
  rfl

/-- C4 amended: whenever the authorization header passes validation but
no token document exists in the Token Store, once the request body is
present with a truthy guild value, the duty-off handler never completes
the flow: it raises an unhandled Python error at the member-fetch line
(the body guild value has no fetch_member attribute; fivem_link is also
never assigned on this path) and leaves the Shift Ledger untouched, so no
shift is located or closed. -/
theorem C4_duty_off_tokenless (env : Env) (auth : String) (b : DutyBody)
    (v : JVal) (hauth : auth ≠ "")
    (hval : validate_authorization env.static_token env.api_tokens env.now
      auth false = true)
    (hnotok : findByToken env.api_tokens auth = none)
    (hg : b.guild = some v) (hv : v.truthy = true) :
    POST_duty_off env (some auth) (some b) =
      (.error (.pyError "AttributeError"), env.shifts) := by
  unfold POST_duty_off dutyOffCheck
  simp [hauth, hval, hnotok, hg, hv]

/-- Witness for the amended C4 at a concrete environment. -/
theorem C4_duty_off_tokenless_witness :
    POST_duty_off envC4 (some "static")
        (some { guild := some (JVal.jNum 5) }) =
      (.error (.pyError "AttributeError"), envC4.shifts) :=
  C4_duty_off_tokenless envC4 "static" { guild := some (JVal.jNum 5) }
    (JVal.jNum 5) (by decide) (by decide) rfl rfl rfl

/-- C8: for every get_discord or get_fivem request that passes the
authorization prologue, when a matching FiveM link document exists the
handler returns the value of the Python expression that updates the
status dict in place, which is None, rather than a success object; only
when no matching document exists does it return the failed status dict. -/
theorem C8_lookup_returns_none (env : Env) (auth : Option String)
    (t : TokenDoc) (lso : LinkStringDoc)
    (hchain : authLinkChain env auth = .ok (t, lso)) :
    (∀ lic : String, lic ≠ "" →
      (∀ d, findFivemByLicense env lic = some d →
        POST_get_discord env auth (some lic) = .ok PyValue.pyNone) ∧
      (findFivemByLicense env lic = none →
        POST_get_discord env auth (some lic) =
          .ok (.pyDict [("status", "failed")]))) ∧
    (∀ i : Nat, i ≠ 0 →
      (∀ d, findFivemById env i = some d →
        POST_get_fivem env auth (some i) = .ok PyValue.pyNone) ∧
      (findFivemById env i = none →
        POST_get_fivem env auth (some i) =
          .ok (.pyDict [("status", "failed")]))) := by
  constructor
  · intro lic hlic
    constructor
    · intro d hd
      unfold POST_get_discord
      simp [hchain, hlic, hd, pyDictUpdate]
    · intro hd
      unfold POST_get_discord
      simp [hchain, hlic, hd]
  · intro i hi
    constructor
    · intro d hd
      unfold POST_get_fivem
      simp [hchain, hi, hd, pyDictUpdate]
    · intro hd
      unfold POST_get_fivem
      simp [hchain, hi, hd]

/-- Witness for C8: with a stored FiveM link matching the license, the
handler returns None. -/
theorem C8_lookup_returns_none_witness :
    POST_get_discord envC8 (some "tok") (some "lic1") = .ok PyValue.pyNone :=
  ((C8_lookup_returns_none envC8 (some "tok")
      { host := "h", token := "tok", created_at := 0, expires_at := 100,
        link_string := some "ls" }
      { lsId := "ls", guild := 5 } rfl).1 "lic1" (by decide)).1
    { discordId := 7, license := some "lic1", steam_id := some "steam1" } rfl

/-- The for-loop of POST_update_guild_settings leaves the local variable
settings unassigned when no entry of the body other than the guild key
holds a dict value. -/
theorem updateLoop_no_dict (store : List (Int × SettingsObj))
    (gid : Option JVal) :
    ∀ (l : List (String × JVal)),
      (∀ kv ∈ l, kv.1 ≠ "guild" → kv.2.isDict = false) →
      updateLoop store gid l none = .ok none := by
  intro l
  induction l with
  | nil => intro _; rfl
  | cons kv rest ih =>
    intro hl
    obtain ⟨k, v⟩ := kv
    have hrest := ih (fun kv hm => hl kv (List.mem_cons_of_mem _ hm))
    by_cases hk : k = "guild"
    · simp [updateLoop, hk, hrest]
    · have hv := hl (k, v) (List.mem_cons_self _ _) hk
      cases v with
      | jDict entries => simp [JVal.isDict] at hv
      | jNull => simp [updateLoop, hk, hrest]
      | jBool b => simp [updateLoop, hk, hrest]
      | jNum n => simp [updateLoop, hk, hrest]
      | jStr s => simp [updateLoop, hk, hrest]

/-- C10: for every request to POST_update_guild_settings whose JSON body
holds no dict-valued entry under a key other than guild, the handler
reaches the update_by_id call with the local variable settings never
assigned and raises an unhandled NameError instead of returning an HTTP
error response; the 400 Invalid-guild check for a missing guild id sits
after that call (lines 187-188) and is never reached. -/
theorem C10_update_settings_name_error (store : List (Int × SettingsObj))
    (guilds : List Int) (body : List (String × JVal))
    (hnd : ∀ kv ∈ body, kv.1 ≠ "guild" → kv.2.isDict = false) :
    POST_update_guild_settings store guilds body =
      .error (.pyError "NameError") := by
  have h := updateLoop_no_dict store
    ((body.find? (fun kv => kv.1 == "guild")).map (fun kv => kv.2)) body hnd
  unfold POST_update_guild_settings
  simp [h]

/-- Witness for C10: a body holding only the guild id produces the
NameError even though the guild id is present and valid lookups would be
possible. -/
theorem C10_update_settings_name_error_witness :
    POST_update_guild_settings [] [] [("guild", JVal.jNum 5)] =
      .error (.pyError "NameError") :=
  C10_update_settings_name_error [] [] [("guild", JVal.jNum 5)]
    (fun _kv hm hne =>
      absurd (congrArg Prod.fst (List.mem_singleton.mp hm)) hne)

/-- Looking a member up in a ledger transformed by a member-id-preserving
map finds the transformed version of the original record. -/
theorem findShiftDoc_map_preserving (s : List ShiftDoc) (m : Nat)
    (f : ShiftDoc → ShiftDoc) (hf : ∀ d, (f d).memberId = d.memberId) :
    findShiftDoc (s.map f) m = (findShiftDoc s m).map f := by
  unfold findShiftDoc
  rw [List.find?_map]
  have hpred : ((fun d => d.memberId == m) ∘ f) = (fun d => d.memberId == m) := by
    funext d
    simp [Function.comp, hf]
  rw [hpred]

/-- Filtering for a guild after filtering it away yields nothing. -/
theorem filter_g_of_filter_not_g (g : Nat) :
    ∀ l : List ShiftEntry,
      (l.filter (fun e => !(e.guild == g))).filter (fun e => e.guild == g) = [] := by
  intro l
  induction l with
  | nil => rfl
  | cons x l ih =>
    by_cases hx : x.guild = g
    · simp [List.filter_cons, hx, ih]
    · simp [List.filter_cons, hx, ih]

/-- After the spec-modelled add, the member holds exactly one open shift
for the guild: the freshly added entry. -/
theorem openShiftsFor_add (shifts : List ShiftDoc) (m g : Nat)
    (st : Option String) :
    openShiftsFor (add_shift_by_user shifts m g st) m g =
      [{ guild := g, shift_type := st }] := by
  cases hfd : findShiftDoc shifts m with
  | none =>
    have hadd : add_shift_by_user shifts m g st =
        shifts ++ [{ memberId := m, data := [{ guild := g, shift_type := st }] }] := by
      unfold add_shift_by_user
      rw [hfd]
    unfold openShiftsFor
    rw [hadd]
    unfold findShiftDoc
    rw [List.find?_append]
    have hfd' : List.find? (fun d => d.memberId == m) shifts = none := hfd
    rw [hfd']
    simp
  | some d0 =>
    have hfd' : List.find? (fun d => d.memberId == m) shifts = some d0 := hfd
    have hm0 := List.find?_some hfd'
    have hm : (d0.memberId == m) = true := hm0
    have hadd : add_shift_by_user shifts m g st = shifts.map (fun d =>
        if d.memberId == m then
          { d with data := d.data.filter (fun e => !(e.guild == g)) ++
              [{ guild := g, shift_type := st }] }
        else d) := by
      unfold add_shift_by_user
      rw [hfd]
    unfold openShiftsFor
    rw [hadd, findShiftDoc_map_preserving shifts m _ (fun d => by
      by_cases h : (d.memberId == m) = true <;> simp [h]), hfd]
    have hmp : d0.memberId = m := by simpa using hm
    simp [hmp, List.filter_append, filter_g_of_filter_not_g]

/-- Erasing the single element that a filter selects empties the filter. -/
theorem filter_erase_singleton {α : Type} [DecidableEq α] (p : α → Bool)
    (a : α) :
    ∀ l : List α, l.filter p = [a] → (l.erase a).filter p = [] := by
  intro l
  induction l with
  | nil => intro h; simp at h
  | cons b l ih =>
    intro h
    by_cases hb : p b
    · rw [List.filter_cons_of_pos hb] at h
      injection h with h1 h2
      subst h1
      rw [List.erase_cons_head]
      exact h2
    · rw [List.filter_cons_of_neg hb] at h
      by_cases hba : b = a
      · subst hba
        have hpa : p b = true := by
          have hma : b ∈ l.filter p := by
            rw [h]
            exact List.mem_singleton_self b
          exact List.of_mem_filter hma
        exact absurd hpa hb
      · rw [List.erase_cons_tail (by simp [hba])]
        rw [List.filter_cons_of_neg hb]
        exact ih h

/-- Removing the unique open shift of a member for a guild leaves the
member with no open shift for that guild. -/
theorem openShiftsFor_remove_of_single (s1 : List ShiftDoc) (m g : Nat)
    (e : ShiftEntry) (doc : ShiftDoc)
    (hfd : findShiftDoc s1 m = some doc)
    (hfil : doc.data.filter (fun x => x.guild == g) = [e]) :
    openShiftsFor (remove_shift_by_user s1 m e) m g = [] := by
  have hfd' : List.find? (fun d => d.memberId == m) s1 = some doc := hfd
  have hm0 := List.find?_some hfd'
  have hm : (doc.memberId == m) = true := hm0
  unfold openShiftsFor remove_shift_by_user
  rw [findShiftDoc_map_preserving s1 m _ (fun d => by
    by_cases h : (d.memberId == m) = true <;> simp [h]), hfd]
  simp only [Option.map_some', hm, if_pos]
  exact filter_erase_singleton _ e doc.data hfil

/-- A successful duty-on leaves the ledger produced by the spec-modelled
add operation for the resolved member and guild. -/
theorem POST_duty_on_ok (env : Env) (a : Option String) (b : Option DutyBody)
    (g m : Nat) (st : Option String) (s1 : List ShiftDoc)
    (h : POST_duty_on env a b = (.ok (g, m, st), s1)) :
    s1 = add_shift_by_user env.shifts m g st := by
  unfold POST_duty_on at h
  cases hc : dutyOnCheck env a b with
  | error e =>
    rw [hc] at h
    exact absurd (congrArg Prod.fst h) (by simp)
  | ok v =>
    obtain ⟨g2, m2, st2⟩ := v
    rw [hc] at h
    have hfst := congrArg Prod.fst h
    have hsnd := congrArg Prod.snd h
    simp at hfst hsnd
    obtain ⟨rfl, rfl, rfl⟩ := hfst
    exact hsnd.symm

/-- A successful duty-off check selected the head of the filtered open
shifts of the resolved member for the resolved guild. -/
theorem dutyOffCheck_ok (env : Env) (a : Option String) (b : Option DutyBody)
    (g m : Nat) (e : ShiftEntry)
    (h : dutyOffCheck env a b = .ok (g, m, e)) :
    ∃ doc, findShiftDoc env.shifts m = some doc ∧
      ∃ rest, doc.data.filter (fun x => x.guild == g) = e :: rest := by
  unfold dutyOffCheck at h
  repeat' split at h
  all_goals try exact absurd h (fun hcontra => Except.noConfusion hcontra)
  simp only [Except.ok.injEq, Prod.mk.injEq] at h
  obtain ⟨rfl, rfl, rfl⟩ := h
  exact ⟨_, by assumption, _, by assumption⟩

/-- C5: a successful duty-on followed by a successful duty-off for the
same member and guild leaves no open shift entry for that pair in the
Shift Ledger (through the spec-modelled ledger operations). -/
theorem C5_duty_on_off_closes (env : Env) (a1 a2 : Option String)
    (b1 b2 : Option DutyBody) (g m : Nat) (st : Option String)
    (s1 s2 : List ShiftDoc)
    (h1 : POST_duty_on env a1 b1 = (.ok (g, m, st), s1))
    (h2 : POST_duty_off { env with shifts := s1 } a2 b2 = (.ok (g, m), s2)) :
    openShiftsFor s2 m g = [] := by
  have hs1 : s1 = add_shift_by_user env.shifts m g st :=
    POST_duty_on_ok env a1 b1 g m st s1 h1
  unfold POST_duty_off at h2
  cases hc : dutyOffCheck { env with shifts := s1 } a2 b2 with
  | error e =>
    rw [hc] at h2
    exact absurd (congrArg Prod.fst h2) (by simp)
  | ok v =>
    obtain ⟨g2, m2, e⟩ := v
    rw [hc] at h2
    have hfst := congrArg Prod.fst h2
    have hsnd := congrArg Prod.snd h2
    simp at hfst hsnd
    obtain ⟨hg2, hm2⟩ := hfst
    rw [hg2] at hc
    rw [hm2] at hc hsnd
    obtain ⟨doc, hfd, rest, hfil⟩ :=
      dutyOffCheck_ok { env with shifts := s1 } a2 b2 g m e hc
    have hfd1 : findShiftDoc s1 m = some doc := hfd
    have hopen : openShiftsFor s1 m g = e :: rest := by
      unfold openShiftsFor
      rw [hfd1]
      exact hfil
    have hadd : openShiftsFor s1 m g = [{ guild := g, shift_type := st }] := by
      rw [hs1]
      exact openShiftsFor_add env.shifts m g st
    rw [hopen] at hadd
    injection hadd with he hrest
    rw [← hsnd]
    refine openShiftsFor_remove_of_single s1 m g e doc hfd1 ?_
    rw [hfil, hrest]

/-- Witness for C5: in a concrete environment, duty-on then duty-off for
member 7 in guild 5 leaves the pair with no open shift. -/
theorem C5_duty_on_off_closes_witness :
    openShiftsFor [{ memberId := 7, data := [] }] 7 5 = [] :=
  C5_duty_on_off_closes envC5 (some "tok") (some "tok")
    (some { steam_id := some "steam1" }) (some { steam_id := some "steam1" })
    5 7 none
    [{ memberId := 7, data := [{ guild := 5, shift_type := none }] }]
    [{ memberId := 7, data := [] }]
    rfl rfl

end ERM
